import Mathlib

/-!
Shallow embedding of the deposit pipeline of `doi_request` (files
`src/doi_request/depositor.py` and `src/processing/exportDOI.py`).

External collaborators (the ArticleMeta Thrift client, the lxml parser and
XML schema engine, and the wall clock) are modelled as oracle inputs that a
run of `Depositor.deposit` consumes.  The SQLAlchemy session is modelled as
a `Session`: a live (flushed) database state plus the snapshot taken at the
last `commit()`.  Python timestamps (`datetime.now()`) are modelled as a
function `times : Nat -> Nat` giving the value returned by the i-th call to
`now()` inside one `deposit` invocation.
-/

namespace DoiRequest

/-- A catalog document record, as consumed by `Depositor.deposit`
(fields `collection_acronym`, `publisher_id`, `doi`; `doi` may be absent). -/
structure Document where
  collection_acronym : String
  publisher_id : String
  doi : Option String
deriving DecidableEq

/-- Modelled from the spec: the `Deposit` ORM row
(`doi_request.models.depositor.Deposit`, a repository module that is not
under `src/`).  Fields follow spec section 3; fields that the constructor
call in `depositor.py` does not set default to `none` (the tri-state
`is_xml_valid` starts unknown). -/
structure Deposit where
  code : String
  pid : String
  collection_acronym : String
  xml_file_name : String
  doi : Option String
  doi_pfx : String
  submission_status : String
  feedback_status : Option String := none
  is_xml_valid : Option Bool := none
  submission_xml : Option String := none
  doi_batch_id : Option String := none
  started_at : Nat
  updated_at : Nat
  submission_updated_at : Nat
  feedback_updated_at : Option Nat := none
deriving DecidableEq

/-- Modelled from the spec: the `LogEvent` ORM row
(`doi_request.models.depositor.LogEvent`, not under `src/`): append-only
audit entry tied to a Deposit by `deposit_code`. -/
structure LogEvent where
  title : String := ""
  body : Option String := none
  type : String := ""
  status : String := ""
  deposit_code : String := ""
  date : Nat := 0
deriving DecidableEq

/-- The two persisted tables. -/
structure DBState where
  deposits : List Deposit
  events : List LogEvent
deriving DecidableEq

/-- The SQLAlchemy session: the live (flushed) state visible to queries in
this session, and the snapshot made durable by the last `commit()`. -/
structure Session where
  live : DBState
  committed : DBState
deriving DecidableEq

/-- `DBSession.add(deposit_row)`. -/
def Session.addDeposit (s : Session) (d : Deposit) : Session :=
  { s with live := { s.live with deposits := s.live.deposits ++ [d] } }

/-- `DBSession.add(logevent)`. -/
def Session.addEvent (s : Session) (e : LogEvent) : Session :=
  { s with live := { s.live with events := s.live.events ++ [e] } }

/-- `DBSession.commit()`: the live state becomes durable. -/
def Session.commit (s : Session) : Session :=
  { s with committed := s.live }

/-- `DBSession.query(Deposit).filter_by(code=code).first()`. -/
def Session.findDeposit (s : Session) (code : String) : Option Deposit :=
  s.live.deposits.find? (fun d => d.code == code)

/-- Remove the first row whose `code` matches (the row returned by
`.first()`, which `DBSession.delete` removes). -/
def eraseFirstCode : List Deposit → String → List Deposit
  | [], _ => []
  | d :: ds, c => if d.code == c then ds else d :: eraseFirstCode ds c

/-- `DBSession.delete(deposit)` for the row found by `findDeposit`. -/
def Session.deleteFirstDeposit (s : Session) (code : String) : Session :=
  { s with live := { s.live with deposits := eraseFirstCode s.live.deposits code } }

/-- In-place attribute mutation of the ORM object `depitem`, visible in the
session's live state: rewrite every row carrying this `code` (after the
upsert there is exactly one). -/
def Session.updateDeposit (s : Session) (code : String) (f : Deposit → Deposit) : Session :=
  { s with live := { s.live with
      deposits := s.live.deposits.map (fun d => if d.code == code then f d else d) } }

/-- Python exceptions that can escape the modelled code. -/
inductive PyExc
  | typeError (msg : String)
  | attributeError (msg : String)
deriving DecidableEq

/-- Abstraction of a parsed crossref XML document (an lxml tree).  Each
`Option String` field is the text of the correspondingly named element,
`none` when the element is absent; `rest` is the remaining opaque content. -/
structure XmlDoc where
  registrant : Option String := none
  depositor_name : Option String := none
  email_address : Option String := none
  doi_batch_id : Option String := none
  rest : String := ""
deriving DecidableEq

/-- Canonical model of `etree.tostring(doc, encoding=utf-8,
pretty_print=True).decode(utf-8)` on a parsed document. -/
def XmlDoc.serialize (d : XmlDoc) : String :=
  String.intercalate ";"
    [d.registrant.getD "-", d.depositor_name.getD "-", d.email_address.getD "-",
     d.doi_batch_id.getD "-", d.rest]

/-- The second component `xml_is_valid` returns: either the parsed document
or the Python string sentinel `''` returned when parsing failed. -/
inductive ParsedXml
  | str (s : String)
  | doc (d : XmlDoc)
deriving DecidableEq

/-- `etree.tostring` serializes an element tree; handed the `str` sentinel
`''` it raises `TypeError` (lxml cannot serialize a plain string). -/
def tostring : ParsedXml → Except PyExc String
  | ParsedXml.str _ => Except.error (PyExc.typeError "Type str cannot be serialized")
  | ParsedXml.doc d => Except.ok d.serialize

/-- Python `str.lower()`, modelled character-wise (the library
`String.toLower` is equivalent but does not reduce inside the kernel). -/
def strLower (s : String) : String := ⟨s.data.map Char.toLower⟩

/-- Python truthiness of an optional string configuration value
(`None` and the empty string are falsy). -/
def truthy : Option String → Bool
  | none => false
  | some s => !(s == "")

/-- The `Depositor` object (`depositor.py`).  `prefix` is a Lean keyword, so
the attribute is renamed `pfx`.  `crossref_schema` is the attribute set by
`_parse_schema`: the loaded schema as a conformance predicate, or `none`
when `_parse_schema` failed and never set the attribute. -/
structure Depositor where
  pfx : String
  api_user : Option String := none
  api_key : Option String := none
  depositor_name : Option String := none
  depositor_email : Option String := none
  test_mode : Bool := false
  crossref_schema : Option (XmlDoc → Bool) := none

/-- `Depositor._parse_schema`: on a schema parse failure the exception is
caught, logged, and `False` is returned (a value `__init__` ignores), so the
`crossref_schema` attribute is simply never set; on success the attribute
holds the schema. -/
def _parse_schema : Except String (XmlDoc → Bool) → Option (XmlDoc → Bool)
  | Except.error _ => none
  | Except.ok sch => some sch

/-- `Depositor.__init__`: stores the configuration and runs
`_parse_schema`.  It has no failure path of its own — a schema-load failure
is swallowed inside `_parse_schema` — so construction always succeeds. -/
def Depositor.init (pfx : String) (api_user api_key depositor_name depositor_email : Option String)
    (test_mode : Bool) (loadResult : Except String (XmlDoc → Bool)) : Except PyExc Depositor :=
  Except.ok { pfx, api_user, api_key, depositor_name, depositor_email, test_mode,
              crossref_schema := _parse_schema loadResult }

/-- `Depositor._setup_depositor` (the metadata rewriter): when
`depositor_name` is truthy, set the text of the `registrant` and
`depositor_name` elements to it (an `AttributeError` is raised if `find`
returned `None` because the element is absent); when `depositor_email` is
truthy, likewise for `email_address`. -/
def _setup_depositor (self : Depositor) (xml : XmlDoc) : Except PyExc XmlDoc :=
  let step1 : Except PyExc XmlDoc :=
    if truthy self.depositor_name then
      match xml.registrant with
      | none => Except.error (PyExc.attributeError "NoneType object has no attribute text")
      | some _ =>
        match xml.depositor_name with
        | none => Except.error (PyExc.attributeError "NoneType object has no attribute text")
        | some _ =>
          Except.ok { xml with registrant := self.depositor_name,
                               depositor_name := self.depositor_name }
    else Except.ok xml
  match step1 with
  | Except.error e => Except.error e
  | Except.ok xml1 =>
    if truthy self.depositor_email then
      match xml1.email_address with
      | none => Except.error (PyExc.attributeError "NoneType object has no attribute text")
      | some _ => Except.ok { xml1 with email_address := self.depositor_email }
    else Except.ok xml1

/-- Oracle for the external collaborators consumed by one `deposit` run:
`times i` is the value returned by the i-th `datetime.now()` call, `fetch`
the outcome of the ArticleMeta fetch, `parse` the outcome of `etree.parse`
on the fetched bytes, `validationMsg` the message of the `DocumentInvalid`
the schema engine raises when the document does not conform. -/
structure Oracle where
  times : Nat → Nat
  fetch : Except String String
  parse : Except String XmlDoc
  validationMsg : String

/-- `Depositor.xml_is_valid`: parse (parse errors are caught and reported
as `(False, the str sentinel, message)`), then run the rewriter (whose
exceptions escape — it is called outside any `try`), then assert schema
validity (`DocumentInvalid` is caught; accessing an unset
`crossref_schema` attribute raises an uncaught `AttributeError`). -/
def xml_is_valid (self : Depositor) (o : Oracle) (xml : String) :
    Except PyExc (Bool × ParsedXml × String) :=
  match o.parse with
  | Except.error e => Except.ok (false, ParsedXml.str "", e)
  | Except.ok xmlDoc =>
    match _setup_depositor self xmlDoc with
    | Except.error e => Except.error e
    | Except.ok xmlDoc2 =>
      match self.crossref_schema with
      | none =>
        Except.error (PyExc.attributeError "Depositor object has no attribute crossref_schema")
      | some sch =>
        if sch xmlDoc2 then Except.ok (true, ParsedXml.doc xmlDoc2, "")
        else Except.ok (false, ParsedXml.doc xmlDoc2, o.validationMsg)

/-- `'_'.join([document.collection_acronym, document.publisher_id])`. -/
def documentCode (doc : Document) : String :=
  doc.collection_acronym ++ "_" ++ doc.publisher_id

/-- The characters before the first `/`. -/
def takeUntilSlash : List Char → List Char
  | [] => []
  | c :: cs => if c = '/' then [] else c :: takeUntilSlash cs

/-- `document.doi.split('/')[0] if document.doi else ''`: the part of the
DOI before the first slash, or empty when the DOI is absent or empty. -/
def doiPfxOf (doc : Document) : String :=
  match doc.doi with
  | none => ""
  | some d => if d == "" then "" else ⟨takeUntilSlash d.data⟩

/-- The fresh `Deposit(...)` row `deposit` constructs (`depitem`). -/
def freshDeposit (doc : Document) (now : Nat) : Deposit :=
  { code := documentCode doc
    pid := doc.publisher_id
    collection_acronym := doc.collection_acronym
    xml_file_name := documentCode doc ++ ".xml"
    doi := doc.doi
    doi_pfx := doiPfxOf doc
    submission_updated_at := now
    submission_status := "waiting"
    updated_at := now
    started_at := now }

/-- The delete-then-insert upsert at the head of `deposit`: if a row with
this code exists, delete it and commit the deletion, then add the fresh row
and commit. -/
def upsertFresh (depitem : Deposit) (s0 : Session) : Session :=
  let s1 :=
    match Session.findDeposit s0 depitem.code with
    | some _ => Session.commit (Session.deleteFirstDeposit s0 depitem.code)
    | none => s0
  Session.commit (Session.addDeposit s1 depitem)

/-- The prefix-mismatch `LogEvent`. -/
def mismatchEvent (code dp pfxStr : String) (t : Nat) : LogEvent :=
  { title := "Document DOI prefix (" ++ dp ++ ") do no match with the collection prefix ("
      ++ pfxStr ++ ")"
    type := "general", status := "notapplicable", deposit_code := code, date := t }

/-- The `LogEvent` announcing the ArticleMeta fetch. -/
def infoEvent (code : String) (t : Nat) : LogEvent :=
  { title := "Loading XML document from ArticleMeta (" ++ code ++ ")"
    type := "submission", status := "info", deposit_code := code, date := t }

/-- The `LogEvent` recording a fetch failure. -/
def fetchErrorEvent (code msg : String) (t : Nat) : LogEvent :=
  { title := "Fail to load XML document from ArticleMeta (" ++ code ++ ")"
    body := some msg, type := "submission", status := "error", deposit_code := code, date := t }

/-- The `LogEvent` recording a validation failure. -/
def invalidEvent (code detail : String) (t : Nat) : LogEvent :=
  { title := "XML is invalid, fail to parse xml for document (" ++ code ++ ")"
    body := some detail, type := "submission", status := "error", deposit_code := code, date := t }

/-- The `LogEvent` recording a validation success. -/
def successEvent (code : String) (t : Nat) : LogEvent :=
  { title := "XML is valid, it will be submitted to Crossref"
    type := "submission", status := "success", deposit_code := code, date := t }

/-- Result of one `Depositor.deposit` run: the session it leaves behind,
whether the ArticleMeta fetch call was attempted, and the exception that
escaped `deposit`, if any. -/
structure DepositOutcome where
  session : Session
  fetched : Bool
  exc : Option PyExc
deriving DecidableEq

/-- `Depositor.deposit(document)`, statement by statement. -/
def deposit (self : Depositor) (o : Oracle) (document : Document) (s0 : Session) :
    DepositOutcome :=
  let code := documentCode document
  let dp := doiPfxOf document
  let now0 := o.times 0
  let depitem := freshDeposit document now0
  let s2 := upsertFresh depitem s0
  if strLower dp ≠ strLower self.pfx then
    let now1 := o.times 1
    let s3 := Session.updateDeposit s2 code (fun d =>
      { d with submission_status := "notapplicable", feedback_status := some "notapplicable",
               submission_updated_at := now1, feedback_updated_at := some now1,
               updated_at := now1 })
    { session := Session.commit (Session.addEvent s3 (mismatchEvent code dp self.pfx now1))
      fetched := false, exc := none }
  else
    let s3 := Session.addEvent s2 (infoEvent code now0)
    match o.fetch with
    | Except.error msg =>
      let now1 := o.times 1
      let s4 := Session.updateDeposit s3 code (fun d =>
        { d with submission_status := "error", submission_updated_at := now1,
                 updated_at := now1 })
      { session := Session.addEvent s4 (fetchErrorEvent code msg now1)
        fetched := true, exc := none }
    | Except.ok xmlStr =>
      let s4 := Session.commit s3
      match xml_is_valid self o xmlStr with
      | Except.error e => { session := s4, fetched := true, exc := some e }
      | Except.ok (is_valid, parsed, detail) =>
        match tostring parsed with
        | Except.error e => { session := s4, fetched := true, exc := some e }
        | Except.ok ser =>
          let s5 := Session.updateDeposit s4 code (fun d =>
            { d with submission_xml := some ser })
          if is_valid = false then
            let now1 := o.times 1
            let s6 := Session.updateDeposit s5 code (fun d =>
              { d with is_xml_valid := some false, submission_status := "error",
                       submission_updated_at := now1, updated_at := now1 })
            { session := Session.commit (Session.addEvent s6 (invalidEvent code detail now1))
              fetched := true, exc := none }
          else
            let s6 := Session.updateDeposit s5 code (fun d =>
              { d with is_xml_valid := some true, submission_status := "waiting" })
            match parsed with
            | ParsedXml.str _ =>
              { session := s6, fetched := true
                exc := some (PyExc.attributeError "str object has no attribute find") }
            | ParsedXml.doc pd =>
              match pd.doi_batch_id with
              | none =>
                { session := s6, fetched := true
                  exc := some (PyExc.attributeError "NoneType object has no attribute text") }
              | some bid =>
                let s7 := Session.updateDeposit s6 code (fun d =>
                  { d with doi_batch_id := some bid })
                { session := Session.commit
                    (Session.addEvent s7 (successEvent code (o.times 2)))
                  fetched := true, exc := none }

/-- `ExportDOI.run`: feed each produced document (paired with the oracle of
its processing) into `deposit`, one after the other; an exception escaping
`deposit` propagates out of `run` (there is no handler around the loop
body) and ends the iteration. -/
def ExportDOI.run (self : Depositor) :
    List (Document × Oracle) → Session → Session × Option PyExc
  | [], s => (s, none)
  | (doc, o) :: rest, s =>
    let r := deposit self o doc s
    match r.exc with
    | some e => (r.session, some e)
    | none => ExportDOI.run self rest r.session

/-- Number of live rows carrying a given code. -/
def countCode (l : List Deposit) (c : String) : Nat :=
  l.countP (fun d => d.code == c)

/-- Number of events carrying a given deposit code. -/
def countEventsFor (l : List LogEvent) (c : String) : Nat :=
  l.countP (fun e => e.deposit_code == c)

/-- Number of events for a code with a given type and status. -/
def countEventsKind (l : List LogEvent) (c ty st : String) : Nat :=
  l.countP (fun e => e.deposit_code == c && e.type == ty && e.status == st)

section Fixtures

/-- A parsed document whose rewriter targets are all present. -/
def xmlDoc0 : XmlDoc :=
  { registrant := some "", depositor_name := some "", email_address := some ""
    doi_batch_id := some "b1", rest := "payload" }

/-- A document whose DOI prefix matches the fixture configuration. -/
def doc0 : Document :=
  { collection_acronym := "scl", publisher_id := "S0001", doi := some "10.1590/S0001" }

/-- A document whose DOI prefix does not match the fixture configuration. -/
def docMismatch : Document :=
  { collection_acronym := "scl", publisher_id := "S0002", doi := some "10.9999/S0002" }

/-- Empty database session. -/
def emptySession : Session :=
  { live := { deposits := [], events := [] }, committed := { deposits := [], events := [] } }

/-- Depositor fixture: prefix 10.1590, no rewriting, schema accepts all. -/
def cfg0 : Depositor :=
  { pfx := "10.1590", crossref_schema := some (fun _ => true) }

/-- Oracle fixture: clock 0,1,2,..., fetch and parse succeed. -/
def oracle0 : Oracle :=
  { times := fun i => i, fetch := Except.ok "<doc/>", parse := Except.ok xmlDoc0
    validationMsg := "invalid" }

/-- Depositor fixture whose schema rejects every document. -/
def cfgInvalid : Depositor := { cfg0 with crossref_schema := some (fun _ => false) }

/-- Oracle whose ArticleMeta fetch fails. -/
def oracleFetchFail : Oracle := { oracle0 with fetch := Except.error "connection refused" }

/-- Oracle whose fetched bytes are not well-formed XML. -/
def oracleParseFail : Oracle := { oracle0 with parse := Except.error "syntax error" }

/-- Depositor configured to rewrite metadata (truthy depositor name). -/
def cfgName : Depositor :=
  { pfx := "10.1590", depositor_name := some "SciELO", crossref_schema := some (fun _ => true) }

/-- A parsed document with no `registrant` element. -/
def xmlNoRegistrant : XmlDoc :=
  { registrant := none, depositor_name := some "", email_address := some ""
    doi_batch_id := some "b1", rest := "p" }

/-- Oracle delivering the registrant-less document. -/
def oracleNoReg : Oracle := { oracle0 with parse := Except.ok xmlNoRegistrant }

/-- A second, well-behaved document for batch runs. -/
def doc2 : Document :=
  { collection_acronym := "scl", publisher_id := "S0003", doi := some "10.1590/S0003" }

/-- A parsed document with no `doi_batch_id` element. -/
def xmlNoBid : XmlDoc := { xmlDoc0 with doi_batch_id := none }

/-- Oracle delivering the batch-id-less document. -/
def oracleNoBid : Oracle := { oracle0 with parse := Except.ok xmlNoBid }

end Fixtures

section Lemmas

lemma countCode_map (g : Deposit → Deposit) (hg : ∀ d, (g d).code = d.code)
    (l : List Deposit) (c : String) :
    countCode (l.map g) c = countCode l c := by
  induction l with
  | nil => rfl
  | cons d ds ih =>
    simp only [List.map_cons, countCode, List.countP_cons] at *
    rw [hg d, ih]

lemma countCode_updateDeposit (s : Session) (cu c : String) (f : Deposit → Deposit)
    (hf : ∀ d, (f d).code = d.code) :
    countCode (Session.updateDeposit s cu f).live.deposits c = countCode s.live.deposits c := by
  refine countCode_map _ (fun d => ?_) _ _
  by_cases h : d.code == cu <;> simp [h, hf]

lemma countCode_map_ite (l : List Deposit) (c c' : String) (f : Deposit → Deposit)
    (hf : ∀ d, (f d).code = d.code) :
    countCode (l.map (fun d => if d.code == c then f d else d)) c' = countCode l c' :=
  countCode_map _ (fun d => by by_cases h : d.code == c <;> simp [h, hf]) l c'

lemma countCode_cons (d : Deposit) (ds : List Deposit) (c : String) :
    countCode (d :: ds) c = countCode ds c + (if d.code == c then 1 else 0) := by
  simp [countCode, List.countP_cons]

lemma countCode_append (l₁ l₂ : List Deposit) (c : String) :
    countCode (l₁ ++ l₂) c = countCode l₁ c + countCode l₂ c := by
  simp [countCode, List.countP_append]

lemma countCode_singleton_self (d : Deposit) : countCode [d] d.code = 1 := by
  simp [countCode]

lemma countCode_eraseFirst (l : List Deposit) (c : String) (h : 0 < countCode l c) :
    countCode (eraseFirstCode l c) c + 1 = countCode l c := by
  induction l with
  | nil => simp [countCode] at h
  | cons d ds ih =>
    by_cases hd : (d.code == c) = true
    · rw [show eraseFirstCode (d :: ds) c = ds from by simp [eraseFirstCode, hd],
        countCode_cons, if_pos hd]
    · have h' : 0 < countCode ds c := by
        rw [countCode_cons, if_neg hd] at h
        simpa using h
      have hih := ih h'
      rw [show eraseFirstCode (d :: ds) c = d :: eraseFirstCode ds c from by
          simp [eraseFirstCode, hd],
        countCode_cons, if_neg hd, countCode_cons, if_neg hd]
      omega

lemma countCode_zero_of_find_none (s : Session) (c : String)
    (h : Session.findDeposit s c = none) : countCode s.live.deposits c = 0 := by
  unfold Session.findDeposit at h
  simp only [countCode]
  exact List.countP_eq_zero.mpr (List.find?_eq_none.mp h)

lemma find_none_of_countCode_zero (s : Session) (c : String)
    (h : countCode s.live.deposits c = 0) : Session.findDeposit s c = none := by
  unfold Session.findDeposit
  exact List.find?_eq_none.mpr (List.countP_eq_zero.mp h)

lemma countCode_pos_of_find_some (s : Session) (c : String) (d : Deposit)
    (h : Session.findDeposit s c = some d) : 0 < countCode s.live.deposits c := by
  unfold Session.findDeposit at h
  have hm : d ∈ s.live.deposits := List.mem_of_find?_eq_some h
  have hp : (d.code == c) = true :=
    List.find?_some (p := fun x => x.code == c) (a := d) h
  simp only [countCode]
  exact List.countP_pos_iff.mpr ⟨d, hm, hp⟩

lemma countCode_upsertFresh (depitem : Deposit) (s : Session)
    (h : countCode s.live.deposits depitem.code ≤ 1) :
    countCode (upsertFresh depitem s).live.deposits depitem.code = 1 := by
  unfold upsertFresh
  cases hf : Session.findDeposit s depitem.code with
  | none =>
    have h0 := countCode_zero_of_find_none s depitem.code hf
    simp only [Session.commit, Session.addDeposit]
    rw [countCode_append, h0, countCode_singleton_self]
  | some d =>
    have hpos := countCode_pos_of_find_some s depitem.code d hf
    have h1 : countCode s.live.deposits depitem.code = 1 := le_antisymm h hpos
    have he := countCode_eraseFirst s.live.deposits depitem.code hpos
    have h0 : countCode (eraseFirstCode s.live.deposits depitem.code) depitem.code = 0 := by
      omega
    simp only [Session.commit, Session.addDeposit, Session.deleteFirstDeposit]
    rw [countCode_append, h0, countCode_singleton_self]

/-- A guarded update is the identity on a list with no row of that code. -/
lemma map_guard_id (l : List Deposit) (c : String) (f : Deposit → Deposit)
    (h : countCode l c = 0) :
    l.map (fun d => if d.code == c then f d else d) = l := by
  induction l with
  | nil => rfl
  | cons d ds ih =>
    have hd : (d.code == c) = false := by
      have := List.countP_eq_zero.mp h d (by simp)
      simpa using this
    have h' : countCode ds c = 0 := by
      rw [countCode_cons, if_neg (by simp [hd])] at h
      simpa using h
    simp only [List.map_cons]
    rw [if_neg (by simp [hd]), ih h']

@[simp] lemma addEvent_live_deposits (s : Session) (e : LogEvent) :
    (Session.addEvent s e).live.deposits = s.live.deposits := rfl

@[simp] lemma addEvent_live_events (s : Session) (e : LogEvent) :
    (Session.addEvent s e).live.events = s.live.events ++ [e] := rfl

@[simp] lemma addEvent_committed (s : Session) (e : LogEvent) :
    (Session.addEvent s e).committed = s.committed := rfl

@[simp] lemma addDeposit_live_deposits (s : Session) (d : Deposit) :
    (Session.addDeposit s d).live.deposits = s.live.deposits ++ [d] := rfl

@[simp] lemma addDeposit_live_events (s : Session) (d : Deposit) :
    (Session.addDeposit s d).live.events = s.live.events := rfl

@[simp] lemma addDeposit_committed (s : Session) (d : Deposit) :
    (Session.addDeposit s d).committed = s.committed := rfl

@[simp] lemma commit_live (s : Session) : (Session.commit s).live = s.live := rfl

@[simp] lemma commit_committed (s : Session) : (Session.commit s).committed = s.live := rfl

@[simp] lemma updateDeposit_live_events (s : Session) (c : String) (f : Deposit → Deposit) :
    (Session.updateDeposit s c f).live.events = s.live.events := rfl

@[simp] lemma updateDeposit_committed (s : Session) (c : String) (f : Deposit → Deposit) :
    (Session.updateDeposit s c f).committed = s.committed := rfl

@[simp] lemma updateDeposit_live_deposits (s : Session) (c : String) (f : Deposit → Deposit) :
    (Session.updateDeposit s c f).live.deposits
      = s.live.deposits.map (fun d => if d.code == c then f d else d) := rfl

lemma upsertFresh_live_events (d : Deposit) (s : Session) :
    (upsertFresh d s).live.events = s.live.events := by
  unfold upsertFresh
  dsimp only
  split <;> rfl

lemma upsertFresh_committed (d : Deposit) (s : Session) :
    (upsertFresh d s).committed = (upsertFresh d s).live := by
  unfold upsertFresh
  dsimp only
  split <;> rfl

/-- On a store with no row of this code, the upsert is insert-and-commit. -/
lemma upsertFresh_of_zero (d : Deposit) (s : Session)
    (h : countCode s.live.deposits d.code = 0) :
    upsertFresh d s = Session.commit (Session.addDeposit s d) := by
  unfold upsertFresh
  rw [find_none_of_countCode_zero s d.code h]

lemma countEventsFor_append (l₁ l₂ : List LogEvent) (c : String) :
    countEventsFor (l₁ ++ l₂) c = countEventsFor l₁ c + countEventsFor l₂ c := by
  simp [countEventsFor, List.countP_append]

lemma countEventsKind_append (l₁ l₂ : List LogEvent) (c ty st : String) :
    countEventsKind (l₁ ++ l₂) c ty st = countEventsKind l₁ c ty st + countEventsKind l₂ c ty st := by
  simp [countEventsKind, List.countP_append]

/-- A code with no events at all has no events of any kind. -/
lemma countEventsKind_zero (l : List LogEvent) (c ty st : String)
    (h : countEventsFor l c = 0) : countEventsKind l c ty st = 0 := by
  simp only [countEventsFor] at h
  simp only [countEventsKind]
  refine List.countP_eq_zero.mpr (fun e he => ?_)
  have h1 := List.countP_eq_zero.mp h e he
  simp only [beq_iff_eq] at h1
  simp [h1]

section BranchLemmas

/-- Evaluation of `deposit` on the prefix-mismatch branch. -/
lemma deposit_mismatch (self : Depositor) (o : Oracle) (doc : Document) (s : Session)
    (hm : strLower (doiPfxOf doc) ≠ strLower self.pfx) :
    deposit self o doc s =
      { session := Session.commit (Session.addEvent
          (Session.updateDeposit (upsertFresh (freshDeposit doc (o.times 0)) s)
            (documentCode doc) (fun d =>
              { d with submission_status := "notapplicable",
                       feedback_status := some "notapplicable",
                       submission_updated_at := o.times 1,
                       feedback_updated_at := some (o.times 1),
                       updated_at := o.times 1 }))
          (mismatchEvent (documentCode doc) (doiPfxOf doc) self.pfx (o.times 1)))
        fetched := false, exc := none } := by
  unfold deposit
  dsimp only
  rw [if_pos hm]

/-- Evaluation of `deposit` on the fetch-failure branch: note there is no
commit after the error state is staged. -/
lemma deposit_fetch_err (self : Depositor) (o : Oracle) (doc : Document) (s : Session)
    (msg : String)
    (hm : strLower (doiPfxOf doc) = strLower self.pfx) (hf : o.fetch = Except.error msg) :
    deposit self o doc s =
      { session := Session.addEvent
          (Session.updateDeposit
            (Session.addEvent (upsertFresh (freshDeposit doc (o.times 0)) s)
              (infoEvent (documentCode doc) (o.times 0)))
            (documentCode doc) (fun d =>
              { d with submission_status := "error", submission_updated_at := o.times 1,
                       updated_at := o.times 1 }))
          (fetchErrorEvent (documentCode doc) msg (o.times 1))
        fetched := true, exc := none } := by
  unfold deposit
  dsimp only
  rw [if_neg (fun hc => hc hm), hf]

/-- Evaluation of `deposit` when `xml_is_valid` raises (rewriter failure or
unset schema attribute): the exception escapes past the committed info
event. -/
lemma deposit_xml_exc (self : Depositor) (o : Oracle) (doc : Document) (s : Session)
    (x : String) (e : PyExc)
    (hm : strLower (doiPfxOf doc) = strLower self.pfx) (hf : o.fetch = Except.ok x)
    (hx : xml_is_valid self o x = Except.error e) :
    deposit self o doc s =
      { session := Session.commit
          (Session.addEvent (upsertFresh (freshDeposit doc (o.times 0)) s)
            (infoEvent (documentCode doc) (o.times 0)))
        fetched := true, exc := some e } := by
  unfold deposit
  dsimp only
  rw [if_neg (fun hc => hc hm), hf]
  dsimp only
  rw [hx]

/-- Evaluation of `deposit` when the fetched XML is not well formed:
`xml_is_valid` reports the parse failure with the `str` sentinel, and
serializing the sentinel raises `TypeError`, which escapes. -/
lemma deposit_tostring_exc (self : Depositor) (o : Oracle) (doc : Document) (s : Session)
    (x : String) (b : Bool) (p : ParsedXml) (detail : String) (e : PyExc)
    (hm : strLower (doiPfxOf doc) = strLower self.pfx) (hf : o.fetch = Except.ok x)
    (hx : xml_is_valid self o x = Except.ok (b, p, detail))
    (ht : tostring p = Except.error e) :
    deposit self o doc s =
      { session := Session.commit
          (Session.addEvent (upsertFresh (freshDeposit doc (o.times 0)) s)
            (infoEvent (documentCode doc) (o.times 0)))
        fetched := true, exc := some e } := by
  unfold deposit
  dsimp only
  rw [if_neg (fun hc => hc hm), hf]
  dsimp only
  rw [hx]
  dsimp only
  rw [ht]

/-- Evaluation of `deposit` on the validation-failure branch. -/
lemma deposit_invalid (self : Depositor) (o : Oracle) (doc : Document) (s : Session)
    (x : String) (p : ParsedXml) (detail ser : String)
    (hm : strLower (doiPfxOf doc) = strLower self.pfx) (hf : o.fetch = Except.ok x)
    (hx : xml_is_valid self o x = Except.ok (false, p, detail))
    (ht : tostring p = Except.ok ser) :
    deposit self o doc s =
      { session := Session.commit (Session.addEvent
          (Session.updateDeposit
            (Session.updateDeposit
              (Session.commit
                (Session.addEvent (upsertFresh (freshDeposit doc (o.times 0)) s)
                  (infoEvent (documentCode doc) (o.times 0))))
              (documentCode doc) (fun d => { d with submission_xml := some ser }))
            (documentCode doc) (fun d =>
              { d with is_xml_valid := some false, submission_status := "error",
                       submission_updated_at := o.times 1, updated_at := o.times 1 }))
          (invalidEvent (documentCode doc) detail (o.times 1)))
        fetched := true, exc := none } := by
  unfold deposit
  dsimp only
  rw [if_neg (fun hc => hc hm), hf]
  dsimp only
  rw [hx]
  dsimp only
  rw [ht]
  rfl

/-- Evaluation of `deposit` on the validation-success branch. -/
lemma deposit_valid (self : Depositor) (o : Oracle) (doc : Document) (s : Session)
    (x : String) (pd : XmlDoc) (detail bid : String)
    (hm : strLower (doiPfxOf doc) = strLower self.pfx) (hf : o.fetch = Except.ok x)
    (hx : xml_is_valid self o x = Except.ok (true, ParsedXml.doc pd, detail))
    (hb : pd.doi_batch_id = some bid) :
    deposit self o doc s =
      { session := Session.commit (Session.addEvent
          (Session.updateDeposit
            (Session.updateDeposit
              (Session.updateDeposit
                (Session.commit
                  (Session.addEvent (upsertFresh (freshDeposit doc (o.times 0)) s)
                    (infoEvent (documentCode doc) (o.times 0))))
                (documentCode doc) (fun d => { d with submission_xml := some pd.serialize }))
              (documentCode doc) (fun d =>
                { d with is_xml_valid := some true, submission_status := "waiting" }))
            (documentCode doc) (fun d => { d with doi_batch_id := some bid }))
          (successEvent (documentCode doc) (o.times 2)))
        fetched := true, exc := none } := by
  unfold deposit
  dsimp only
  rw [if_neg (fun hc => hc hm), hf]
  dsimp only
  rw [hx]
  dsimp only [tostring]
  rw [hb]
  rfl

/-- Evaluation of `deposit` on the validation-success branch when the
validated document lacks a `doi_batch_id` element: the `.text` access on
`find`'s `None` raises, after the validity fields were staged. -/
lemma deposit_valid_nobid (self : Depositor) (o : Oracle) (doc : Document) (s : Session)
    (x : String) (pd : XmlDoc) (detail : String)
    (hm : strLower (doiPfxOf doc) = strLower self.pfx) (hf : o.fetch = Except.ok x)
    (hx : xml_is_valid self o x = Except.ok (true, ParsedXml.doc pd, detail))
    (hb : pd.doi_batch_id = none) :
    deposit self o doc s =
      { session := Session.updateDeposit
            (Session.updateDeposit
              (Session.commit
                (Session.addEvent (upsertFresh (freshDeposit doc (o.times 0)) s)
                  (infoEvent (documentCode doc) (o.times 0))))
              (documentCode doc) (fun d => { d with submission_xml := some pd.serialize }))
            (documentCode doc) (fun d =>
              { d with is_xml_valid := some true, submission_status := "waiting" })
        fetched := true
        exc := some (PyExc.attributeError "NoneType object has no attribute text") } := by
  unfold deposit
  dsimp only
  rw [if_neg (fun hc => hc hm), hf]
  dsimp only
  rw [hx]
  dsimp only [tostring]
  rw [hb]
  rfl

end BranchLemmas

end Lemmas

/-- C1: `deposit` performs upsert-by-replace — an existing row with the
same code is deleted and the deletion committed before the fresh row (with
`submission_status = waiting` and `started_at = updated_at =
submission_updated_at` all equal to the creation timestamp) is inserted; on
every branch of the pipeline the run leaves exactly one live Deposit row
for that code, provided the store held at most one before. -/
theorem claim_C1 (self : Depositor) (o : Oracle) (doc : Document) (s : Session)
    (h : countCode s.live.deposits (documentCode doc) ≤ 1) :
    countCode (deposit self o doc s).session.live.deposits (documentCode doc) = 1
    ∧ (freshDeposit doc (o.times 0)).submission_status = "waiting"
    ∧ (freshDeposit doc (o.times 0)).started_at = o.times 0
    ∧ (freshDeposit doc (o.times 0)).updated_at = o.times 0
    ∧ (freshDeposit doc (o.times 0)).submission_updated_at = o.times 0
    ∧ (∀ s' d0, Session.findDeposit s' (documentCode doc) = some d0 →
        upsertFresh (freshDeposit doc (o.times 0)) s' =
          Session.commit (Session.addDeposit
            (Session.commit (Session.deleteFirstDeposit s' (documentCode doc)))
            (freshDeposit doc (o.times 0)))) := by
  have hbase := countCode_upsertFresh (freshDeposit doc (o.times 0)) s h
  refine ⟨?_, rfl, rfl, rfl, rfl, ?_⟩
  · unfold deposit
    dsimp only
    repeat' split
    all_goals dsimp only [Session.commit, Session.addEvent]
    all_goals (repeat rw [countCode_updateDeposit])
    all_goals (first | exact hbase | (intro d; rfl))
  · intro s' d0 hf
    unfold upsertFresh
    have hfc : Session.findDeposit s' (freshDeposit doc (o.times 0)).code = some d0 := hf
    rw [hfc]
    rfl

/-- C2: on a DOI-prefix mismatch (case-insensitive) `deposit` terminates
with `submission_status = feedback_status = notapplicable` and updated
timestamps on the row, appends exactly one committed
`LogEvent{type=general, status=notapplicable}` for the code, commits, and
never attempts the CatalogProvider fetch; on a case-insensitive match the
pipeline proceeds to the fetch step. -/
theorem claim_C2 (self : Depositor) (o : Oracle) (doc : Document) (s : Session) :
    (strLower (doiPfxOf doc) ≠ strLower self.pfx →
      (deposit self o doc s).fetched = false
      ∧ (deposit self o doc s).exc = none
      ∧ (deposit self o doc s).session.committed = (deposit self o doc s).session.live
      ∧ (deposit self o doc s).session.live.events
          = s.live.events
            ++ [mismatchEvent (documentCode doc) (doiPfxOf doc) self.pfx (o.times 1)]
      ∧ (countEventsFor s.live.events (documentCode doc) = 0 →
          countEventsKind (deposit self o doc s).session.committed.events
            (documentCode doc) "general" "notapplicable" = 1)
      ∧ (countCode s.live.deposits (documentCode doc) = 0 →
          (deposit self o doc s).session.live.deposits
            = s.live.deposits ++
              [{ freshDeposit doc (o.times 0) with
                   submission_status := "notapplicable"
                   feedback_status := some "notapplicable"
                   submission_updated_at := o.times 1
                   feedback_updated_at := some (o.times 1)
                   updated_at := o.times 1 }]))
    ∧ (strLower (doiPfxOf doc) = strLower self.pfx →
        (deposit self o doc s).fetched = true) := by
  constructor
  · intro hm
    rw [deposit_mismatch self o doc s hm]
    refine ⟨rfl, rfl, rfl, ?_, ?_, ?_⟩
    · dsimp only
      simp [upsertFresh_live_events]
    · intro hnoev
      dsimp only
      simp only [commit_committed, addEvent_live_events, updateDeposit_live_events,
        upsertFresh_live_events, countEventsKind_append]
      rw [countEventsKind_zero _ _ _ _ hnoev]
      simp [countEventsKind, mismatchEvent]
    · intro hnorow
      dsimp only
      rw [upsertFresh_of_zero _ _ hnorow]
      simp only [addEvent_live_deposits, commit_live, updateDeposit_live_deposits,
        addDeposit_live_deposits, List.map_append]
      rw [map_guard_id _ _ _ hnorow]
      simp [freshDeposit]
  · intro hm
    unfold deposit
    dsimp only
    rw [if_neg (fun hc => hc hm)]
    repeat' split
    all_goals rfl

/-- C2 witness: with prefix `10.1590`, DOI `10.9999/S0002` short-circuits
to `notapplicable` with one committed general/notapplicable event and no
fetch; DOI `10.1590/S0001` proceeds to the fetch. -/
theorem claim_C2_witness :
    ((deposit cfg0 oracle0 docMismatch emptySession).fetched = false
      ∧ countEventsKind (deposit cfg0 oracle0 docMismatch emptySession).session.committed.events
          (documentCode docMismatch) "general" "notapplicable" = 1)
    ∧ (deposit cfg0 oracle0 doc0 emptySession).fetched = true := by
  refine ⟨⟨?_, ?_⟩, ?_⟩
  · exact ((claim_C2 cfg0 oracle0 docMismatch emptySession).1 (by decide)).1
  · exact ((claim_C2 cfg0 oracle0 docMismatch emptySession).1 (by decide)).2.2.2.2.1 rfl
  · exact (claim_C2 cfg0 oracle0 doc0 emptySession).2 (by decide)

lemma xml_is_valid_of_valid (self : Depositor) (o : Oracle) (x : String)
    (d d' : XmlDoc) (sch : XmlDoc → Bool)
    (hp : o.parse = Except.ok d) (hs : _setup_depositor self d = Except.ok d')
    (hsch : self.crossref_schema = some sch) (hvalid : sch d' = true) :
    xml_is_valid self o x = Except.ok (true, ParsedXml.doc d', "") := by
  unfold xml_is_valid
  rw [hp]
  dsimp only
  rw [hs]
  dsimp only
  rw [hsch]
  dsimp only
  rw [hvalid]
  simp

lemma xml_is_valid_of_invalid (self : Depositor) (o : Oracle) (x : String)
    (d d' : XmlDoc) (sch : XmlDoc → Bool)
    (hp : o.parse = Except.ok d) (hs : _setup_depositor self d = Except.ok d')
    (hsch : self.crossref_schema = some sch) (hvalid : sch d' = false) :
    xml_is_valid self o x = Except.ok (false, ParsedXml.doc d', o.validationMsg) := by
  unfold xml_is_valid
  rw [hp]
  dsimp only
  rw [hs]
  dsimp only
  rw [hsch]
  dsimp only
  rw [hvalid]
  simp

/-- Any member of `l ++ [ext]` carrying a code absent from `l` is `ext`. -/
lemma mem_code_of_append (l : List Deposit) (c : String) (h0 : countCode l c = 0)
    (row ext : Deposit) (hmem : row ∈ l ++ [ext]) (hc : row.code = c) : row = ext := by
  rcases List.mem_append.mp hmem with h | h
  · exfalso
    have := List.countP_eq_zero.mp h0 row h
    simp [hc] at this
  · simpa using h

/-- C3: when the fetched XML parses, is rewritten, and passes schema
validation, `deposit` leaves the row with `is_xml_valid = true`,
`submission_status = waiting` (unchanged), `doi_batch_id` equal to the text
extracted from the validated document, `submission_xml` equal to the
pretty-printed rewritten serialization, and appends one committed
`LogEvent{type=submission, status=success}` after the info event. -/
theorem claim_C3 (self : Depositor) (o : Oracle) (doc : Document) (s : Session)
    (x : String) (d d' : XmlDoc) (sch : XmlDoc → Bool) (bid : String)
    (hm : strLower (doiPfxOf doc) = strLower self.pfx)
    (hf : o.fetch = Except.ok x)
    (hp : o.parse = Except.ok d)
    (hs : _setup_depositor self d = Except.ok d')
    (hsch : self.crossref_schema = some sch)
    (hvalid : sch d' = true)
    (hbid : d'.doi_batch_id = some bid)
    (hnorow : countCode s.live.deposits (documentCode doc) = 0) :
    (deposit self o doc s).exc = none
    ∧ (deposit self o doc s).session.committed = (deposit self o doc s).session.live
    ∧ (deposit self o doc s).session.live.deposits
        = s.live.deposits ++
          [{ freshDeposit doc (o.times 0) with
               submission_xml := some d'.serialize
               is_xml_valid := some true
               submission_status := "waiting"
               doi_batch_id := some bid }]
    ∧ (deposit self o doc s).session.live.events
        = s.live.events ++ [infoEvent (documentCode doc) (o.times 0),
                            successEvent (documentCode doc) (o.times 2)] := by
  have hx := xml_is_valid_of_valid self o x d d' sch hp hs hsch hvalid
  rw [deposit_valid self o doc s x d' "" bid hm hf hx hbid]
  refine ⟨rfl, rfl, ?_, ?_⟩
  · dsimp only
    rw [upsertFresh_of_zero _ _ hnorow]
    simp only [updateDeposit_live_deposits, commit_live, addEvent_live_deposits,
      addDeposit_live_deposits, List.map_append]
    rw [map_guard_id _ _ _ hnorow, map_guard_id _ _ _ hnorow, map_guard_id _ _ _ hnorow]
    simp [freshDeposit]
  · dsimp only
    simp [upsertFresh_live_events]

/-- C3 witness: a concrete valid-XML run. -/
theorem claim_C3_witness :
    (deposit cfg0 oracle0 doc0 emptySession).exc = none
    ∧ (deposit cfg0 oracle0 doc0 emptySession).session.committed
        = (deposit cfg0 oracle0 doc0 emptySession).session.live
    ∧ (deposit cfg0 oracle0 doc0 emptySession).session.live.deposits
        = emptySession.live.deposits ++
          [{ freshDeposit doc0 (oracle0.times 0) with
               submission_xml := some xmlDoc0.serialize
               is_xml_valid := some true
               submission_status := "waiting"
               doi_batch_id := some "b1" }]
    ∧ (deposit cfg0 oracle0 doc0 emptySession).session.live.events
        = emptySession.live.events ++ [infoEvent (documentCode doc0) (oracle0.times 0),
                                       successEvent (documentCode doc0) (oracle0.times 2)] :=
  claim_C3 cfg0 oracle0 doc0 emptySession "<doc/>" xmlDoc0 xmlDoc0 (fun _ => true) "b1"
    (by decide) rfl rfl rfl rfl rfl rfl rfl

/-- C4: when the fetched XML parses and is rewritten but fails schema
validation, `deposit` sets `is_xml_valid = false` and `submission_status =
error`, appends a committed `LogEvent{type=submission, status=error}`
carrying the validation detail — and in every validity outcome the row's
`submission_xml` is the rewritten, pretty-printed serialization. -/
theorem claim_C4 (self : Depositor) (o : Oracle) (doc : Document) (s : Session)
    (x : String) (d d' : XmlDoc) (sch : XmlDoc → Bool)
    (hm : strLower (doiPfxOf doc) = strLower self.pfx)
    (hf : o.fetch = Except.ok x)
    (hp : o.parse = Except.ok d)
    (hs : _setup_depositor self d = Except.ok d')
    (hsch : self.crossref_schema = some sch)
    (hnorow : countCode s.live.deposits (documentCode doc) = 0) :
    (∃ row, (deposit self o doc s).session.live.deposits = s.live.deposits ++ [row]
        ∧ row.submission_xml = some d'.serialize
        ∧ row.code = documentCode doc)
    ∧ (sch d' = false →
        (deposit self o doc s).exc = none
        ∧ (deposit self o doc s).session.committed = (deposit self o doc s).session.live
        ∧ (deposit self o doc s).session.live.deposits
            = s.live.deposits ++
              [{ freshDeposit doc (o.times 0) with
                   submission_xml := some d'.serialize
                   is_xml_valid := some false
                   submission_status := "error"
                   submission_updated_at := o.times 1
                   updated_at := o.times 1 }]
        ∧ (deposit self o doc s).session.live.events
            = s.live.events ++ [infoEvent (documentCode doc) (o.times 0),
                                invalidEvent (documentCode doc) o.validationMsg (o.times 1)]) := by
  have hinv : sch d' = false →
      (deposit self o doc s).session.live.deposits
        = s.live.deposits ++
          [{ freshDeposit doc (o.times 0) with
               submission_xml := some d'.serialize
               is_xml_valid := some false
               submission_status := "error"
               submission_updated_at := o.times 1
               updated_at := o.times 1 }] := by
    intro hvalid
    have hx := xml_is_valid_of_invalid self o x d d' sch hp hs hsch hvalid
    rw [deposit_invalid self o doc s x (ParsedXml.doc d') o.validationMsg d'.serialize
      hm hf hx rfl]
    dsimp only
    rw [upsertFresh_of_zero _ _ hnorow]
    simp only [updateDeposit_live_deposits, commit_live, addEvent_live_deposits,
      addDeposit_live_deposits, List.map_append]
    rw [map_guard_id _ _ _ hnorow, map_guard_id _ _ _ hnorow]
    simp [freshDeposit]
  constructor
  · cases hvalid : sch d' with
    | false =>
      refine ⟨_, hinv hvalid, ?_, ?_⟩ <;> simp [freshDeposit]
    | true =>
      have hx := xml_is_valid_of_valid self o x d d' sch hp hs hsch hvalid
      cases hb : d'.doi_batch_id with
      | some bid =>
        rw [deposit_valid self o doc s x d' "" bid hm hf hx hb]
        dsimp only
        rw [upsertFresh_of_zero _ _ hnorow]
        simp only [updateDeposit_live_deposits, commit_live, addEvent_live_deposits,
          addDeposit_live_deposits, List.map_append]
        rw [map_guard_id _ _ _ hnorow, map_guard_id _ _ _ hnorow, map_guard_id _ _ _ hnorow]
        refine ⟨_, rfl, ?_, ?_⟩ <;> simp [freshDeposit]
      | none =>
        rw [deposit_valid_nobid self o doc s x d' "" hm hf hx hb]
        dsimp only
        rw [upsertFresh_of_zero _ _ hnorow]
        simp only [updateDeposit_live_deposits, commit_live, addEvent_live_deposits,
          addDeposit_live_deposits, List.map_append]
        rw [map_guard_id _ _ _ hnorow, map_guard_id _ _ _ hnorow]
        refine ⟨_, rfl, ?_, ?_⟩ <;> simp [freshDeposit]
  · intro hvalid
    have hx := xml_is_valid_of_invalid self o x d d' sch hp hs hsch hvalid
    rw [deposit_invalid self o doc s x (ParsedXml.doc d') o.validationMsg d'.serialize
      hm hf hx rfl] at hinv ⊢
    refine ⟨rfl, rfl, hinv hvalid, ?_⟩
    dsimp only
    simp [upsertFresh_live_events]

/-- C4 witness: a concrete invalid-XML run (schema rejects everything). -/
theorem claim_C4_witness :
    (deposit cfgInvalid oracle0 doc0 emptySession).exc = none
    ∧ (deposit cfgInvalid oracle0 doc0 emptySession).session.committed
        = (deposit cfgInvalid oracle0 doc0 emptySession).session.live
    ∧ (deposit cfgInvalid oracle0 doc0 emptySession).session.live.deposits
        = emptySession.live.deposits ++
          [{ freshDeposit doc0 (oracle0.times 0) with
               submission_xml := some xmlDoc0.serialize
               is_xml_valid := some false
               submission_status := "error"
               submission_updated_at := oracle0.times 1
               updated_at := oracle0.times 1 }]
    ∧ (deposit cfgInvalid oracle0 doc0 emptySession).session.live.events
        = emptySession.live.events
          ++ [infoEvent (documentCode doc0) (oracle0.times 0),
              invalidEvent (documentCode doc0) oracle0.validationMsg (oracle0.times 1)] :=
  (claim_C4 cfgInvalid oracle0 doc0 emptySession
    "<doc/>" xmlDoc0 xmlDoc0 (fun _ => false) (by decide) rfl rfl rfl rfl rfl).2 rfl

/-- C5 (documents the code bug): on fetch failure the error status and the
two LogEvents (info then error) are only staged in the live session — the
source returns without `DBSession.commit()` on this branch, so the
committed snapshot still holds the fresh `waiting` row and no events at
all; the exception itself is swallowed. -/
theorem claim_C5_bug :
    (deposit cfg0 oracleFetchFail doc0 emptySession).exc = none
    ∧ (deposit cfg0 oracleFetchFail doc0 emptySession).session.live.events
        = [infoEvent (documentCode doc0) 0,
           fetchErrorEvent (documentCode doc0) "connection refused" 1]
    ∧ (deposit cfg0 oracleFetchFail doc0 emptySession).session.live.deposits
        = [{ freshDeposit doc0 0 with
               submission_status := "error", submission_updated_at := 1, updated_at := 1 }]
    ∧ (deposit cfg0 oracleFetchFail doc0 emptySession).session.committed.events = []
    ∧ (deposit cfg0 oracleFetchFail doc0 emptySession).session.committed.deposits
        = [freshDeposit doc0 0] :=
  ⟨rfl, rfl, rfl, rfl, rfl⟩

/-- C6 (documents the code bug): on non-well-formed XML, `xml_is_valid`
returns the `''` sentinel, and `deposit` then hands it to `etree.tostring`,
which raises `TypeError`; the exception escapes `deposit`, the row is left
at `waiting` with `is_xml_valid` unset, and no error LogEvent is ever
recorded — the committed state holds only the info event. -/
theorem claim_C6_bug :
    (deposit cfg0 oracleParseFail doc0 emptySession).exc
        = some (PyExc.typeError "Type str cannot be serialized")
    ∧ (deposit cfg0 oracleParseFail doc0 emptySession).session.live.deposits
        = [freshDeposit doc0 0]
    ∧ (deposit cfg0 oracleParseFail doc0 emptySession).session.live.events
        = [infoEvent (documentCode doc0) 0]
    ∧ (deposit cfg0 oracleParseFail doc0 emptySession).session.committed
        = (deposit cfg0 oracleParseFail doc0 emptySession).session.live :=
  ⟨rfl, rfl, rfl, rfl⟩

/-- C7 counterexample: when the schema cannot be parsed, construction of
the `Depositor` does NOT fail — `__init__` returns normally with the
`crossref_schema` attribute simply never set. -/
theorem claim_C7_counterexample :
    Depositor.init "10.1590" none none none none false (Except.error "schema parse failure")
      = Except.ok { pfx := "10.1590", crossref_schema := none } := rfl

/-- C7 (amended): a schema parse failure at startup is caught and logged
inside `_parse_schema`; construction succeeds with `crossref_schema`
unset, and the failure instead surfaces per document: the first validation
attempt raises an `AttributeError` that escapes `deposit`. -/
theorem claim_C7 (pfx : String) (au ak dn de : Option String) (tm : Bool) (e : String)
    (o : Oracle) (doc : Document) (s : Session) (x : String) (d d' : XmlDoc)
    (hm : strLower (doiPfxOf doc) = strLower pfx)
    (hf : o.fetch = Except.ok x) (hp : o.parse = Except.ok d)
    (hs : _setup_depositor
        { pfx := pfx, api_user := au, api_key := ak, depositor_name := dn,
          depositor_email := de, test_mode := tm, crossref_schema := none } d
      = Except.ok d') :
    Depositor.init pfx au ak dn de tm (Except.error e)
      = Except.ok { pfx := pfx, api_user := au, api_key := ak, depositor_name := dn,
                    depositor_email := de, test_mode := tm, crossref_schema := none }
    ∧ (deposit
        { pfx := pfx, api_user := au, api_key := ak, depositor_name := dn,
          depositor_email := de, test_mode := tm, crossref_schema := none } o doc s).exc
      = some (PyExc.attributeError "Depositor object has no attribute crossref_schema") := by
  refine ⟨rfl, ?_⟩
  have hx : xml_is_valid
      { pfx := pfx, api_user := au, api_key := ak, depositor_name := dn,
        depositor_email := de, test_mode := tm, crossref_schema := none } o x
      = Except.error (PyExc.attributeError "Depositor object has no attribute crossref_schema") := by
    unfold xml_is_valid
    rw [hp]
    dsimp only
    rw [hs]
  rw [deposit_xml_exc _ o doc s x _ hm hf hx]

/-- C7 witness: the amended behaviour at a concrete configuration. -/
theorem claim_C7_witness :
    Depositor.init "10.1590" none none none none false (Except.error "boom")
      = Except.ok { pfx := "10.1590", api_user := none, api_key := none,
                    depositor_name := none, depositor_email := none, test_mode := false,
                    crossref_schema := none }
    ∧ (deposit
        { pfx := "10.1590", api_user := none, api_key := none, depositor_name := none,
          depositor_email := none, test_mode := false, crossref_schema := none }
        oracle0 doc0 emptySession).exc
      = some (PyExc.attributeError "Depositor object has no attribute crossref_schema") :=
  claim_C7 "10.1590" none none none none false "boom" oracle0 doc0 emptySession
    "<doc/>" xmlDoc0 xmlDoc0 (by decide) rfl rfl rfl

/-- C8 counterexample: in a two-document batch whose first document makes
the rewriter fail loudly (configured depositor name, absent `registrant`
element), the `AttributeError` propagates out of `ExportDOI.run` and the
second document is never deposited — no row with its code exists. -/
theorem claim_C8_counterexample :
    (ExportDOI.run cfgName [(doc0, oracleNoReg), (doc2, oracle0)] emptySession).2
        = some (PyExc.attributeError "NoneType object has no attribute text")
    ∧ countCode
        (ExportDOI.run cfgName [(doc0, oracleNoReg), (doc2, oracle0)] emptySession).1.live.deposits
        (documentCode doc2) = 0 :=
  ⟨rfl, rfl⟩

/-- C8 (amended): `ExportDOI.run` has no handler around the pipeline call,
so an exception escaping `deposit` for one document stops the iteration:
the run returns immediately with that exception and none of the remaining
documents is fed into the pipeline. -/
theorem claim_C8 (self : Depositor) (o : Oracle) (doc : Document)
    (rest : List (Document × Oracle)) (s : Session) (e : PyExc)
    (h : (deposit self o doc s).exc = some e) :
    ExportDOI.run self ((doc, o) :: rest) s = ((deposit self o doc s).session, some e) := by
  unfold ExportDOI.run
  dsimp only
  rw [h]

/-- C8 witness: the amended behaviour on the concrete two-document batch. -/
theorem claim_C8_witness :
    ExportDOI.run cfgName [(doc0, oracleNoReg), (doc2, oracle0)] emptySession
      = ((deposit cfgName oracleNoReg doc0 emptySession).session,
         some (PyExc.attributeError "NoneType object has no attribute text")) :=
  claim_C8 cfgName oracleNoReg doc0 [(doc2, oracle0)] emptySession
    (PyExc.attributeError "NoneType object has no attribute text") rfl

/-- C9: within one `deposit` run the LogEvents are appended at the tail of
the event table in exactly the order the pipeline transitions occur — on
each branch the appended sequence is spelled out (the fetch info event
before the fetch/validation error or success event) — and, given a
monotone clock, the `date` values of the appended events form a
non-decreasing sequence. -/
theorem claim_C9 (self : Depositor) (o : Oracle) (doc : Document) (s : Session)
    (hmono : Monotone o.times) :
    (strLower (doiPfxOf doc) ≠ strLower self.pfx →
      (deposit self o doc s).session.live.events
        = s.live.events
          ++ [mismatchEvent (documentCode doc) (doiPfxOf doc) self.pfx (o.times 1)]
      ∧ List.Chain' (· ≤ ·) (List.map LogEvent.date
          [mismatchEvent (documentCode doc) (doiPfxOf doc) self.pfx (o.times 1)]))
    ∧ (∀ msg, strLower (doiPfxOf doc) = strLower self.pfx →
        o.fetch = Except.error msg →
      (deposit self o doc s).session.live.events
        = s.live.events ++ [infoEvent (documentCode doc) (o.times 0),
                            fetchErrorEvent (documentCode doc) msg (o.times 1)]
      ∧ List.Chain' (· ≤ ·) (List.map LogEvent.date
          [infoEvent (documentCode doc) (o.times 0),
           fetchErrorEvent (documentCode doc) msg (o.times 1)]))
    ∧ (∀ x e, strLower (doiPfxOf doc) = strLower self.pfx →
        o.fetch = Except.ok x → xml_is_valid self o x = Except.error e →
      (deposit self o doc s).session.live.events
        = s.live.events ++ [infoEvent (documentCode doc) (o.times 0)])
    ∧ (∀ x b p detail e2, strLower (doiPfxOf doc) = strLower self.pfx →
        o.fetch = Except.ok x → xml_is_valid self o x = Except.ok (b, p, detail) →
        tostring p = Except.error e2 →
      (deposit self o doc s).session.live.events
        = s.live.events ++ [infoEvent (documentCode doc) (o.times 0)])
    ∧ (∀ x p detail ser, strLower (doiPfxOf doc) = strLower self.pfx →
        o.fetch = Except.ok x → xml_is_valid self o x = Except.ok (false, p, detail) →
        tostring p = Except.ok ser →
      (deposit self o doc s).session.live.events
        = s.live.events ++ [infoEvent (documentCode doc) (o.times 0),
                            invalidEvent (documentCode doc) detail (o.times 1)]
      ∧ List.Chain' (· ≤ ·) (List.map LogEvent.date
          [infoEvent (documentCode doc) (o.times 0),
           invalidEvent (documentCode doc) detail (o.times 1)]))
    ∧ (∀ x pd detail, strLower (doiPfxOf doc) = strLower self.pfx →
        o.fetch = Except.ok x →
        xml_is_valid self o x = Except.ok (true, ParsedXml.doc pd, detail) →
        pd.doi_batch_id = none →
      (deposit self o doc s).session.live.events
        = s.live.events ++ [infoEvent (documentCode doc) (o.times 0)])
    ∧ (∀ x pd detail bid, strLower (doiPfxOf doc) = strLower self.pfx →
        o.fetch = Except.ok x →
        xml_is_valid self o x = Except.ok (true, ParsedXml.doc pd, detail) →
        pd.doi_batch_id = some bid →
      (deposit self o doc s).session.live.events
        = s.live.events ++ [infoEvent (documentCode doc) (o.times 0),
                            successEvent (documentCode doc) (o.times 2)]
      ∧ List.Chain' (· ≤ ·) (List.map LogEvent.date
          [infoEvent (documentCode doc) (o.times 0),
           successEvent (documentCode doc) (o.times 2)])) := by
  have h01 : o.times 0 ≤ o.times 1 := hmono (by norm_num)
  have h02 : o.times 0 ≤ o.times 2 := hmono (by norm_num)
  refine ⟨?_, ?_, ?_, ?_, ?_, ?_, ?_⟩
  · intro hm
    constructor
    · rw [deposit_mismatch self o doc s hm]
      dsimp only
      simp [upsertFresh_live_events]
    · simp
  · intro msg hm hf
    constructor
    · rw [deposit_fetch_err self o doc s msg hm hf]
      dsimp only
      simp [upsertFresh_live_events]
    · simp [infoEvent, fetchErrorEvent, List.chain'_cons, h01]
  · intro x e hm hf hxv
    rw [deposit_xml_exc self o doc s x e hm hf hxv]
    dsimp only
    simp [upsertFresh_live_events]
  · intro x b p detail e2 hm hf hxv ht
    rw [deposit_tostring_exc self o doc s x b p detail e2 hm hf hxv ht]
    dsimp only
    simp [upsertFresh_live_events]
  · intro x p detail ser hm hf hxv ht
    constructor
    · rw [deposit_invalid self o doc s x p detail ser hm hf hxv ht]
      dsimp only
      simp [upsertFresh_live_events]
    · simp [infoEvent, invalidEvent, List.chain'_cons, h01]
  · intro x pd detail hm hf hxv hb
    rw [deposit_valid_nobid self o doc s x pd detail hm hf hxv hb]
    dsimp only
    simp [upsertFresh_live_events]
  · intro x pd detail bid hm hf hxv hb
    constructor
    · rw [deposit_valid self o doc s x pd detail bid hm hf hxv hb]
      dsimp only
      simp [upsertFresh_live_events]
    · simp [infoEvent, successEvent, List.chain'_cons, h02]

/-- C9 witness: concrete runs from an empty store with the identity clock,
one per pipeline branch — the appended event sequences are exactly as
named (info before error/success) with non-decreasing dates. -/
theorem claim_C9_witness :
    ((deposit cfg0 oracle0 docMismatch emptySession).session.live.events
        = emptySession.live.events
          ++ [mismatchEvent (documentCode docMismatch) (doiPfxOf docMismatch) cfg0.pfx
                (oracle0.times 1)]
      ∧ List.Chain' (· ≤ ·) (List.map LogEvent.date
          [mismatchEvent (documentCode docMismatch) (doiPfxOf docMismatch) cfg0.pfx
             (oracle0.times 1)]))
    ∧ ((deposit cfg0 oracleFetchFail doc0 emptySession).session.live.events
        = emptySession.live.events
          ++ [infoEvent (documentCode doc0) (oracleFetchFail.times 0),
              fetchErrorEvent (documentCode doc0) "connection refused" (oracleFetchFail.times 1)]
      ∧ List.Chain' (· ≤ ·) (List.map LogEvent.date
          [infoEvent (documentCode doc0) (oracleFetchFail.times 0),
           fetchErrorEvent (documentCode doc0) "connection refused" (oracleFetchFail.times 1)]))
    ∧ ((deposit cfgName oracleNoReg doc0 emptySession).session.live.events
        = emptySession.live.events ++ [infoEvent (documentCode doc0) (oracleNoReg.times 0)])
    ∧ ((deposit cfg0 oracleParseFail doc0 emptySession).session.live.events
        = emptySession.live.events ++ [infoEvent (documentCode doc0) (oracleParseFail.times 0)])
    ∧ ((deposit cfgInvalid oracle0 doc0 emptySession).session.live.events
        = emptySession.live.events
          ++ [infoEvent (documentCode doc0) (oracle0.times 0),
              invalidEvent (documentCode doc0) oracle0.validationMsg (oracle0.times 1)]
      ∧ List.Chain' (· ≤ ·) (List.map LogEvent.date
          [infoEvent (documentCode doc0) (oracle0.times 0),
           invalidEvent (documentCode doc0) oracle0.validationMsg (oracle0.times 1)]))
    ∧ ((deposit cfg0 oracleNoBid doc0 emptySession).session.live.events
        = emptySession.live.events ++ [infoEvent (documentCode doc0) (oracleNoBid.times 0)])
    ∧ ((deposit cfg0 oracle0 doc0 emptySession).session.live.events
        = emptySession.live.events
          ++ [infoEvent (documentCode doc0) (oracle0.times 0),
              successEvent (documentCode doc0) (oracle0.times 2)]
      ∧ List.Chain' (· ≤ ·) (List.map LogEvent.date
          [infoEvent (documentCode doc0) (oracle0.times 0),
           successEvent (documentCode doc0) (oracle0.times 2)])) := by
  refine ⟨?_, ?_, ?_, ?_, ?_, ?_, ?_⟩
  · exact (claim_C9 cfg0 oracle0 docMismatch emptySession (fun _ _ h => h)).1 (by decide)
  · exact (claim_C9 cfg0 oracleFetchFail doc0 emptySession (fun _ _ h => h)).2.1
      "connection refused" (by decide) rfl
  · exact (claim_C9 cfgName oracleNoReg doc0 emptySession (fun _ _ h => h)).2.2.1
      "<doc/>" (PyExc.attributeError "NoneType object has no attribute text") (by decide) rfl rfl
  · exact (claim_C9 cfg0 oracleParseFail doc0 emptySession (fun _ _ h => h)).2.2.2.1
      "<doc/>" false (ParsedXml.str "") "syntax error"
      (PyExc.typeError "Type str cannot be serialized") (by decide) rfl rfl rfl
  · exact (claim_C9 cfgInvalid oracle0 doc0 emptySession (fun _ _ h => h)).2.2.2.2.1
      "<doc/>" (ParsedXml.doc xmlDoc0) oracle0.validationMsg xmlDoc0.serialize
      (by decide) rfl rfl rfl
  · exact (claim_C9 cfg0 oracleNoBid doc0 emptySession (fun _ _ h => h)).2.2.2.2.2.1
      "<doc/>" xmlNoBid "" (by decide) rfl rfl rfl
  · exact (claim_C9 cfg0 oracle0 doc0 emptySession (fun _ _ h => h)).2.2.2.2.2.2
      "<doc/>" xmlDoc0 "" "b1" (by decide) rfl rfl rfl

/-- C10: once the prefix gate is passed, no later step of `deposit` touches
`feedback_status` or `feedback_updated_at`: on every outcome (fetch
failure, validation failure, validation success, or an escaping exception)
the row for the code keeps the values the fresh Deposit was created with. -/
theorem claim_C10 (self : Depositor) (o : Oracle) (doc : Document) (s : Session)
    (hm : strLower (doiPfxOf doc) = strLower self.pfx)
    (hnorow : countCode s.live.deposits (documentCode doc) = 0) :
    ∀ row ∈ (deposit self o doc s).session.live.deposits, row.code = documentCode doc →
      row.feedback_status = (freshDeposit doc (o.times 0)).feedback_status
      ∧ row.feedback_updated_at = (freshDeposit doc (o.times 0)).feedback_updated_at := by
  have hshape : ∃ g : Deposit → Deposit,
      (deposit self o doc s).session.live.deposits
        = s.live.deposits ++ [g (freshDeposit doc (o.times 0))]
      ∧ (∀ dd, (g dd).feedback_status = dd.feedback_status
            ∧ (g dd).feedback_updated_at = dd.feedback_updated_at) := by
    cases hfetch : o.fetch with
    | error msg =>
      refine ⟨fun dd => { dd with submission_status := "error", submission_updated_at := o.times 1, updated_at := o.times 1 }, ?_, fun dd => ⟨rfl, rfl⟩⟩
      rw [deposit_fetch_err self o doc s msg hm hfetch]
      dsimp only
      rw [upsertFresh_of_zero _ _ hnorow]
      simp only [updateDeposit_live_deposits, addEvent_live_deposits, commit_live,
        addDeposit_live_deposits, List.map_append]
      rw [map_guard_id _ _ _ hnorow]
      simp [freshDeposit]
    | ok x =>
      cases hxv : xml_is_valid self o x with
      | error e =>
        refine ⟨id, ?_, fun dd => ⟨rfl, rfl⟩⟩
        rw [deposit_xml_exc self o doc s x e hm hfetch hxv]
        dsimp only
        rw [upsertFresh_of_zero _ _ hnorow]
        simp
      | ok res =>
        obtain ⟨b, p, detail⟩ := res
        cases ht : tostring p with
        | error e2 =>
          refine ⟨id, ?_, fun dd => ⟨rfl, rfl⟩⟩
          rw [deposit_tostring_exc self o doc s x b p detail e2 hm hfetch hxv ht]
          dsimp only
          rw [upsertFresh_of_zero _ _ hnorow]
          simp
        | ok ser =>
          cases b with
          | false =>
            refine ⟨fun dd => { dd with submission_xml := some ser, is_xml_valid := some false, submission_status := "error", submission_updated_at := o.times 1, updated_at := o.times 1 }, ?_, fun dd => ⟨rfl, rfl⟩⟩
            rw [deposit_invalid self o doc s x p detail ser hm hfetch hxv ht]
            dsimp only
            rw [upsertFresh_of_zero _ _ hnorow]
            simp only [updateDeposit_live_deposits, addEvent_live_deposits, commit_live,
              addDeposit_live_deposits, List.map_append]
            rw [map_guard_id _ _ _ hnorow, map_guard_id _ _ _ hnorow]
            simp [freshDeposit]
          | true =>
            cases p with
            | str q => simp [tostring] at ht
            | doc pd =>
              cases hb : pd.doi_batch_id with
              | none =>
                refine ⟨fun dd => { dd with submission_xml := some pd.serialize, is_xml_valid := some true, submission_status := "waiting" }, ?_, fun dd => ⟨rfl, rfl⟩⟩
                rw [deposit_valid_nobid self o doc s x pd detail hm hfetch hxv hb]
                dsimp only
                rw [upsertFresh_of_zero _ _ hnorow]
                simp only [updateDeposit_live_deposits, addEvent_live_deposits, commit_live,
                  addDeposit_live_deposits, List.map_append]
                rw [map_guard_id _ _ _ hnorow, map_guard_id _ _ _ hnorow]
                simp [freshDeposit]
              | some bid =>
                refine ⟨fun dd => { dd with submission_xml := some pd.serialize, is_xml_valid := some true, submission_status := "waiting", doi_batch_id := some bid }, ?_, fun dd => ⟨rfl, rfl⟩⟩
                rw [deposit_valid self o doc s x pd detail bid hm hfetch hxv hb]
                dsimp only
                rw [upsertFresh_of_zero _ _ hnorow]
                simp only [updateDeposit_live_deposits, addEvent_live_deposits, commit_live,
                  addDeposit_live_deposits, List.map_append]
                rw [map_guard_id _ _ _ hnorow, map_guard_id _ _ _ hnorow,
                  map_guard_id _ _ _ hnorow]
                simp [freshDeposit]
  obtain ⟨g, hlist, hg⟩ := hshape
  intro row hrow hc
  rw [hlist] at hrow
  have heq := mem_code_of_append s.live.deposits (documentCode doc) hnorow row
      (g (freshDeposit doc (o.times 0))) hrow hc
  subst heq
  exact ⟨(hg _).1, (hg _).2⟩

/-- C10 witness: the concrete success-path row keeps the creation-time
feedback fields. -/
theorem claim_C10_witness :
    ({ freshDeposit doc0 0 with
         submission_xml := some xmlDoc0.serialize
         is_xml_valid := some true
         submission_status := "waiting"
         doi_batch_id := some "b1" } : Deposit).feedback_status
        = (freshDeposit doc0 (oracle0.times 0)).feedback_status
    ∧ ({ freshDeposit doc0 0 with
           submission_xml := some xmlDoc0.serialize
           is_xml_valid := some true
           submission_status := "waiting"
           doi_batch_id := some "b1" } : Deposit).feedback_updated_at
        = (freshDeposit doc0 (oracle0.times 0)).feedback_updated_at :=
  claim_C10 cfg0 oracle0 doc0 emptySession (by decide) rfl
    { freshDeposit doc0 0 with
        submission_xml := some xmlDoc0.serialize
        is_xml_valid := some true
        submission_status := "waiting"
        doi_batch_id := some "b1" } (by decide) rfl

/-- C1 witness: a concrete run on an empty store leaves exactly one live
row for the document's code, with the fresh-row field equalities. -/
theorem claim_C1_witness :
    countCode (deposit cfg0 oracle0 doc0 emptySession).session.live.deposits
        (documentCode doc0) = 1
    ∧ (freshDeposit doc0 (oracle0.times 0)).submission_status = "waiting"
    ∧ (freshDeposit doc0 (oracle0.times 0)).started_at = oracle0.times 0
    ∧ (freshDeposit doc0 (oracle0.times 0)).updated_at = oracle0.times 0
    ∧ (freshDeposit doc0 (oracle0.times 0)).submission_updated_at = oracle0.times 0 := by
  obtain ⟨h1, h2, h3, h4, h5, _⟩ :=
    claim_C1 cfg0 oracle0 doc0 emptySession (by simp [countCode, emptySession])
  exact ⟨h1, h2, h3, h4, h5⟩

end DoiRequest
